import Mathlib

/-!
Shallow embedding of the TCW + World authentication pipeline
(source: src/lib/tcw-auth.ts of world-tinycloud-mini-app).

The five exported functions of the source are modelled as pure Lean
functions over an explicit environment `Env` capturing the external
collaborators (the MiniKit host-wallet integration, the browser window,
the clock, the random sources, and the TinyCloud session layer).
JavaScript exceptions become `Except JsError`; `TCWAuthError` instances
are the `JsError.tcwAuthError` constructor, every other thrown value is
`JsError.foreign`.  The `catch` blocks of the source become `mapError`
over the translated `try` body (each body is its own definition, suffixed
`Body`).  Calls to external collaborators and the orchestrator's stage
invocations are recorded in a trace of `Event`s so that claims about
which collaborator/stage runs (and in which order) are statable.
Timestamps are epoch milliseconds as `Int`; the source's
`new Date(...).toISOString()` rendering of an instant is abstracted as
the instant itself.
-/

set_option linter.unusedVariables false

/-- A JavaScript error value: either a classified `TCWAuthError` with
`message`, `code` and optional `cause` fields, or any other thrown
value (`foreign`), identified by a tag. -/
inductive JsError where
  | tcwAuthError (message : String) (code : String) (cause : Option JsError)
  | foreign (tag : String)
deriving Repr

/-- The `code` field of a classified error (`none` for a foreign value). -/
def JsError.codeOf : JsError → Option String
  | .tcwAuthError _ c _ => some c
  | .foreign _ => none

/-- The `message` field of a classified error (`none` for a foreign value). -/
def JsError.messageOf : JsError → Option String
  | .tcwAuthError m _ _ => some m
  | .foreign _ => none

/-- `finalPayload` of `MiniKit.commandsAsync.walletAuth`: a status string
("success" or "error") and the signature (meaningful when successful). -/
structure SignPayload where
  status : String
  signature : String
deriving DecidableEq, Repr

/-- The `SimpleSiweMessage` interface of the source: the embedded address
plus the `prepareMessage()` rendering, which, being a JS method call, may
throw; the remaining optional fields of the interface are carried along
but never read by this module. -/
structure SimpleSiweMessage where
  prepareMessage : Except JsError String
  address : String
  statement : Option String := none
  domain : Option String := none
  uri : Option String := none
  version : Option String := none
  chainId : Option Int := none
  expirationTime : Option String := none
  notBefore : Option String := none

/-- The configuration object `siweMessageConfig` built by
`generateSiweWithTCW` and passed to `tcw.generateSiweMessage`.
`expirationTime` and `notBefore` are the epoch-ms instants whose ISO
renderings the source stores. -/
structure SiweMessageConfig where
  statement : String
  domain : String
  uri : String
  version : String
  chainId : Int
  expirationTime : Int
  notBefore : Int
deriving DecidableEq, Repr

/-- The TinyCloudWeb session-layer instance (the non-null case of the
`tcw : any` parameter): its `generateSiweMessage` method, which may
throw. -/
structure TcwInstance where
  generateSiweMessage : String → SiweMessageConfig → Except JsError SimpleSiweMessage

/-- The placeholder session object built by `initializeTCWSession`. -/
structure PlaceholderTcwSession where
  initialized : Bool
  address : String
  timestamp : Int
deriving DecidableEq, Repr

/-- The `TCWAuthSession` interface of the source. -/
structure TCWAuthSession where
  address : String
  signature : String
  message : String
  tcwSession : PlaceholderTcwSession
deriving Repr

/-- The external world: MiniKit host-wallet state, browser window state,
clock, and random sources.  `walletAuth` is the behaviour of
`MiniKit.commandsAsync.walletAuth` as a function of the statement being
signed; it may throw. -/
structure Env where
  minikitInstalled : Bool
  userWalletAddress : Option String
  windowDefined : Bool
  windowHost : String
  windowOrigin : String
  now : Int
  cryptoAvailable : Bool
  randomUUID : String
  signNonce : String
  mathRandomToken : String
  walletAuth : String → Except JsError SignPayload

/-- Observable events: the orchestrator invoking one of its four stages,
and the two calls that reach external layers (the session layer's
`generateSiweMessage` and MiniKit's `walletAuth`). -/
inductive Event where
  | stageGetWalletAddress
  | stageGenerateSiwe (address : String)
  | stageSignSiwe (message : String)
  | stageInitializeSession
  | sessionGenerateSiweMessage (address : String) (config : SiweMessageConfig)
  | walletAuthCall (nonce : String) (requestId : String) (expirationTime : Int)
      (notBefore : Int) (statement : String)
deriving DecidableEq, Repr

/-- Tags for the four pipeline stages, to talk about order of stage
invocations independently of stage arguments. -/
inductive StageTag where
  | getAddr
  | genSiwe
  | signSiwe
  | initSession
deriving DecidableEq, Repr

def stageTagOf : Event → Option StageTag
  | .stageGetWalletAddress => some .getAddr
  | .stageGenerateSiwe _ => some .genSiwe
  | .stageSignSiwe _ => some .signSiwe
  | .stageInitializeSession => some .initSession
  | _ => none

/-- The subsequence of stage invocations in a trace. -/
def stageTrace (tr : List Event) : List StageTag :=
  tr.filterMap stageTagOf

/-- The `catch` pattern shared by `getWalletAddress`, `signSiweWithWorld`,
`generateSiweWithTCW` and `performTCWWorldAuth`:
`if (error instanceof TCWAuthError) throw error;` then wrap the foreign
error with the given message and code, keeping it as the cause. -/
def rethrowOrWrap (message : String) (code : String) (e : JsError) : JsError :=
  match e with
  | .tcwAuthError m c cs => .tcwAuthError m c cs
  | .foreign t => .tcwAuthError message code (some (.foreign t))

/-- `try` body of `getWalletAddress`. -/
def getWalletAddressBody (env : Env) : Except JsError String :=
  if !env.minikitInstalled then
    .error (.tcwAuthError "MiniKit is not installed" "MINIKIT_NOT_INSTALLED" none)
  else
    match env.userWalletAddress with
    | none =>
        .error (.tcwAuthError "No wallet address available from MiniKit"
          "NO_WALLET_ADDRESS" none)
    | some a => .ok a

/-- `getWalletAddress`: body plus its `catch` block. -/
def getWalletAddress (env : Env) : Except JsError String :=
  (getWalletAddressBody env).mapError
    (rethrowOrWrap "Failed to get wallet address" "WALLET_ADDRESS_ERROR")

/-- `try` body of `signSiweWithWorld`.  The `walletAuth` call carries the
fresh nonce, the fixed request id "tcw-auth", and the 24-hour / minus-1-minute
validity window computed from the clock. -/
def signSiweWithWorldBody (env : Env) (message : String) :
    Except JsError String × List Event :=
  if !env.minikitInstalled then
    (.error (.tcwAuthError "MiniKit is not installed" "MINIKIT_NOT_INSTALLED" none), [])
  else
    let ev : Event := .walletAuthCall env.signNonce "tcw-auth"
      (env.now + 24 * 60 * 60 * 1000) (env.now - 60 * 1000) message
    match env.walletAuth message with
    | .error e => (.error e, [ev])
    | .ok finalPayload =>
        if finalPayload.status == "error" then
          (.error (.tcwAuthError "Failed to sign message with World"
            "WORLD_SIGN_ERROR" none), [ev])
        else
          (.ok finalPayload.signature, [ev])

/-- `signSiweWithWorld`: body plus its `catch` block. -/
def signSiweWithWorld (env : Env) (message : String) :
    Except JsError String × List Event :=
  let r := signSiweWithWorldBody env message
  (r.1.mapError (rethrowOrWrap "Failed to sign SIWE message with World"
    "WORLD_SIGN_ERROR"), r.2)

/-- The address-format test of the source,
`!address || !address.startsWith("0x") || address.length !== 42`,
expressed on the character list of the string (the empty-string test, the
two-character 0x-prefix test and the length test are each rendered on
`address.data`) so that the kernel can evaluate it on literals. -/
def addressFormatFails (address : String) : Bool :=
  address.data.isEmpty || !(address.data.take 2 == ['0', 'x']) || address.data.length != 42

/-- `try` body of `generateSiweWithTCW`: null check on `tcw`, address
format check (`!address || !address.startsWith("0x") || address.length !== 42`),
browser-environment check, the (unused) random correlation token, the
configuration object, and the delegation to `tcw.generateSiweMessage`. -/
def generateSiweWithTCWBody (env : Env) (tcw : Option TcwInstance)
    (address : String) : Except JsError SimpleSiweMessage × List Event :=
  match tcw with
  | none =>
      (.error (.tcwAuthError "TCW instance is not available"
        "TCW_NOT_INITIALIZED" none), [])
  | some t =>
      if addressFormatFails address then
        (.error (.tcwAuthError "Invalid Ethereum address format"
          "INVALID_ADDRESS" none), [])
      else if !env.windowDefined then
        (.error (.tcwAuthError "TCW authentication must be called in browser environment"
          "NOT_BROWSER_ENVIRONMENT" none), [])
      else
        -- computed by the source but never used afterwards
        let randomId : String :=
          if env.cryptoAvailable then env.randomUUID.take 8 else env.mathRandomToken
        let siweMessageConfig : SiweMessageConfig :=
          { statement := "Sign in to World Mini App with TinyCloud"
            domain := env.windowHost
            uri := env.windowOrigin
            version := "1"
            chainId := 1
            expirationTime := env.now + 24 * 60 * 60 * 1000
            notBefore := env.now - 60 * 1000 }
        (t.generateSiweMessage address siweMessageConfig,
          [.sessionGenerateSiweMessage address siweMessageConfig])

/-- `generateSiweWithTCW`: body plus its `catch` block. -/
def generateSiweWithTCW (env : Env) (tcw : Option TcwInstance)
    (address : String) : Except JsError SimpleSiweMessage × List Event :=
  let r := generateSiweWithTCWBody env tcw address
  (r.1.mapError (rethrowOrWrap "Failed to generate SIWE message with TCW"
    "SIWE_GENERATION_ERROR"), r.2)

/-- `try` body of `initializeTCWSession`: builds the placeholder session
object and the returned `TCWAuthSession`; the only fallible operation is
the `siweMessage.prepareMessage()` call.  The session layer is never
consulted (the real call is commented out in the source). -/
def initializeTCWSessionBody (env : Env) (tcw : Option TcwInstance)
    (siweMessage : SimpleSiweMessage) (signature : String) :
    Except JsError TCWAuthSession × List Event :=
  let tcwSession : PlaceholderTcwSession :=
    { initialized := true, address := siweMessage.address, timestamp := env.now }
  match siweMessage.prepareMessage with
  | .error e => (.error e, [])
  | .ok msg =>
      (.ok { address := siweMessage.address
             signature := signature
             message := msg
             tcwSession := tcwSession }, [])

/-- `initializeTCWSession`: body plus its `catch` block, which (unlike the
other functions) wraps every error, with no `instanceof TCWAuthError`
pass-through. -/
def initializeTCWSession (env : Env) (tcw : Option TcwInstance)
    (siweMessage : SimpleSiweMessage) (signature : String) :
    Except JsError TCWAuthSession × List Event :=
  let r := initializeTCWSessionBody env tcw siweMessage signature
  (r.1.mapError (fun e => .tcwAuthError "Failed to initialize TCW session"
    "TCW_SESSION_INIT_ERROR" (some e)), r.2)

/-- `try` body of `performTCWWorldAuth`: browser-environment gate, then the
four stages in sequence, each stage invocation recorded in the trace.  The
`siweMessage.prepareMessage()` call of step 3's argument happens at the
orchestrator level, before `signSiweWithWorld` is invoked. -/
def performTCWWorldAuthBody (env : Env) (tcw : Option TcwInstance) :
    Except JsError TCWAuthSession × List Event :=
  if !env.windowDefined then
    (.error (.tcwAuthError
      "TCW + World authentication can only be performed in browser environment"
      "NOT_BROWSER_ENVIRONMENT" none), [])
  else
    match getWalletAddress env with
    | .error e => (.error e, [.stageGetWalletAddress])
    | .ok address =>
        let r2 := generateSiweWithTCW env tcw address
        let tr2 := Event.stageGetWalletAddress :: Event.stageGenerateSiwe address :: r2.2
        match r2.1 with
        | .error e => (.error e, tr2)
        | .ok siweMessage =>
            match siweMessage.prepareMessage with
            | .error e => (.error e, tr2)
            | .ok rendered =>
                let r3 := signSiweWithWorld env rendered
                let tr3 := tr2 ++ Event.stageSignSiwe rendered :: r3.2
                match r3.1 with
                | .error e => (.error e, tr3)
                | .ok signature =>
                    let r4 := initializeTCWSession env tcw siweMessage signature
                    let tr4 := tr3 ++ Event.stageInitializeSession :: r4.2
                    match r4.1 with
                    | .error e => (.error e, tr4)
                    | .ok session => (.ok session, tr4)

/-- `performTCWWorldAuth`: body plus its `catch` block. -/
def performTCWWorldAuth (env : Env) (tcw : Option TcwInstance) :
    Except JsError TCWAuthSession × List Event :=
  let r := performTCWWorldAuthBody env tcw
  (r.1.mapError (rethrowOrWrap "TCW + World authentication flow failed"
    "AUTH_FLOW_ERROR"), r.2)

/-! ## Concrete fixtures for witnesses and counterexamples -/

/-- A well-formed 42-character 0x-prefixed address. -/
def validAddr : String := "0xaaaaaaaaaaaaaaaaaaaaaaaaaaaaaaaaaaaaaaaa"

/-- A 42-character 0x-prefixed address whose tail is not hexadecimal. -/
def badHexAddr : String := "0xzzzzzzzzzzzzzzzzzzzzzzzzzzzzzzzzzzzzzzzz"

/-- A session-layer message whose rendering succeeds. -/
def siweOk (address : String) : SimpleSiweMessage :=
  { prepareMessage := .ok ("rendered:" ++ address), address := address }

/-- A session layer that returns `siweOk` for every request. -/
def tcwOk : TcwInstance :=
  { generateSiweMessage := fun address _ => .ok (siweOk address) }

/-- A healthy environment: MiniKit installed, address bound, browser
window present, signing succeeds. -/
def envBase : Env :=
  { minikitInstalled := true
    userWalletAddress := some validAddr
    windowDefined := true
    windowHost := "app.example"
    windowOrigin := "https://app.example"
    now := 1700000000000
    cryptoAvailable := true
    randomUUID := "0123456789abcdef"
    signNonce := "nonce-1"
    mathRandomToken := "fallbacka"
    walletAuth := fun _ => .ok { status := "success", signature := "0xsig" } }

/-- Environment whose wallet reports an explicit error status when signing. -/
def envSignErr : Env :=
  { envBase with walletAuth := fun _ => .ok { status := "error", signature := "" } }

/-- Environment whose wallet throws a foreign exception when signing. -/
def envSignExc : Env :=
  { envBase with walletAuth := fun _ => .error (.foreign "network failure") }

/-- A message whose `prepareMessage()` throws an already-classified
`TCWAuthError` (code "BOOM"). -/
def siweThrowsClassified : SimpleSiweMessage :=
  { prepareMessage := .error (.tcwAuthError "boom" "BOOM" none), address := validAddr }

/-- The classified code of a failed result, `none` for successes and
foreign errors. -/
def resultErrCode {α : Type} : Except JsError α → Option String
  | .error e => e.codeOf
  | .ok _ => none

/-- The classified message of a failed result, `none` for successes and
foreign errors. -/
def resultErrMessage {α : Type} : Except JsError α → Option String
  | .error e => e.messageOf
  | .ok _ => none

/-! ## Helper lemmas -/

theorem stageTrace_nil : stageTrace [] = [] := rfl

theorem stageTrace_append (a b : List Event) :
    stageTrace (a ++ b) = stageTrace a ++ stageTrace b := by
  simp [stageTrace]

theorem generateSiweWithTCW_snd (env : Env) (tcw : Option TcwInstance)
    (address : String) :
    (generateSiweWithTCW env tcw address).2 = (generateSiweWithTCWBody env tcw address).2 := rfl

theorem signSiweWithWorld_snd (env : Env) (m : String) :
    (signSiweWithWorld env m).2 = (signSiweWithWorldBody env m).2 := rfl

theorem generateSiweWithTCW_trace_stageFree (env : Env) (tcw : Option TcwInstance)
    (address : String) : stageTrace (generateSiweWithTCW env tcw address).2 = [] := by
  rw [generateSiweWithTCW_snd]
  unfold generateSiweWithTCWBody
  cases tcw
  · rfl
  · by_cases h1 : addressFormatFails address = true
    · simp [h1, stageTrace]
    · by_cases h2 : env.windowDefined = true <;>
        simp [h1, h2, stageTrace, stageTagOf]

theorem signSiweWithWorld_trace_stageFree (env : Env) (m : String) :
    stageTrace (signSiweWithWorld env m).2 = [] := by
  rw [signSiweWithWorld_snd]
  unfold signSiweWithWorldBody
  split
  · rfl
  · split <;> first | rfl | (split <;> rfl)

theorem initializeTCWSession_trace_nil (env : Env) (tcw : Option TcwInstance)
    (siweMessage : SimpleSiweMessage) (signature : String) :
    (initializeTCWSession env tcw siweMessage signature).2 = [] := by
  have h : (initializeTCWSession env tcw siweMessage signature).2 =
      (initializeTCWSessionBody env tcw siweMessage signature).2 := rfl
  rw [h]
  unfold initializeTCWSessionBody
  split <;> rfl

theorem signSiweWithWorld_ok_inv (env : Env) (m sig : String)
    (h : (signSiweWithWorld env m).1 = .ok sig) :
    env.minikitInstalled = true ∧ ∃ p, env.walletAuth m = .ok p ∧
      (p.status == "error") = false ∧ sig = p.signature := by
  simp only [signSiweWithWorld, signSiweWithWorldBody] at h
  split at h
  · simp [Except.mapError] at h
  · rename_i hm
    refine ⟨by simpa using hm, ?_⟩
    split at h
    · simp [Except.mapError, rethrowOrWrap] at h
    · rename_i p hp
      split at h
      · simp [Except.mapError] at h
      · rename_i hs
        simp [Except.mapError] at h
        exact ⟨p, hp, by simpa using hs, h.symm⟩

theorem initializeTCWSession_ok_inv (env : Env) (tcw : Option TcwInstance)
    (siwe : SimpleSiweMessage) (sig : String) (s : TCWAuthSession)
    (h : (initializeTCWSession env tcw siwe sig).1 = .ok s) :
    siwe.prepareMessage = .ok s.message ∧ s.address = siwe.address ∧ s.signature = sig := by
  simp only [initializeTCWSession, initializeTCWSessionBody] at h
  split at h
  · simp [Except.mapError] at h
  · rename_i msg hmsg
    simp [Except.mapError] at h
    subst h
    exact ⟨hmsg, rfl, rfl⟩

theorem performTCWWorldAuth_noWindow (env : Env) (tcw : Option TcwInstance)
    (hw : env.windowDefined = false) :
    performTCWWorldAuth env tcw =
      (.error (.tcwAuthError
        "TCW + World authentication can only be performed in browser environment"
        "NOT_BROWSER_ENVIRONMENT" none), []) := by
  simp [performTCWWorldAuth, performTCWWorldAuthBody, hw, Except.mapError, rethrowOrWrap]

theorem performTCWWorldAuth_addrError (env : Env) (tcw : Option TcwInstance) (e : JsError)
    (hw : env.windowDefined = true) (h1 : getWalletAddress env = .error e) :
    performTCWWorldAuth env tcw =
      (.error (rethrowOrWrap "TCW + World authentication flow failed" "AUTH_FLOW_ERROR" e),
       [Event.stageGetWalletAddress]) := by
  simp [performTCWWorldAuth, performTCWWorldAuthBody, hw, h1, Except.mapError]

theorem performTCWWorldAuth_genError (env : Env) (tcw : Option TcwInstance)
    (address : String) (e : JsError)
    (hw : env.windowDefined = true)
    (h1 : getWalletAddress env = .ok address)
    (h2 : (generateSiweWithTCW env tcw address).1 = .error e) :
    performTCWWorldAuth env tcw =
      (.error (rethrowOrWrap "TCW + World authentication flow failed" "AUTH_FLOW_ERROR" e),
       Event.stageGetWalletAddress :: Event.stageGenerateSiwe address ::
         (generateSiweWithTCW env tcw address).2) := by
  simp [performTCWWorldAuth, performTCWWorldAuthBody, hw, h1, h2, Except.mapError]

theorem performTCWWorldAuth_prepError (env : Env) (tcw : Option TcwInstance)
    (address : String) (siwe : SimpleSiweMessage) (e : JsError)
    (hw : env.windowDefined = true)
    (h1 : getWalletAddress env = .ok address)
    (h2 : (generateSiweWithTCW env tcw address).1 = .ok siwe)
    (h3 : siwe.prepareMessage = .error e) :
    performTCWWorldAuth env tcw =
      (.error (rethrowOrWrap "TCW + World authentication flow failed" "AUTH_FLOW_ERROR" e),
       Event.stageGetWalletAddress :: Event.stageGenerateSiwe address ::
         (generateSiweWithTCW env tcw address).2) := by
  simp [performTCWWorldAuth, performTCWWorldAuthBody, hw, h1, h2, h3, Except.mapError]

theorem performTCWWorldAuth_signError (env : Env) (tcw : Option TcwInstance)
    (address : String) (siwe : SimpleSiweMessage) (rendered : String) (e : JsError)
    (hw : env.windowDefined = true)
    (h1 : getWalletAddress env = .ok address)
    (h2 : (generateSiweWithTCW env tcw address).1 = .ok siwe)
    (h3 : siwe.prepareMessage = .ok rendered)
    (h4 : (signSiweWithWorld env rendered).1 = .error e) :
    performTCWWorldAuth env tcw =
      (.error (rethrowOrWrap "TCW + World authentication flow failed" "AUTH_FLOW_ERROR" e),
       (Event.stageGetWalletAddress :: Event.stageGenerateSiwe address ::
          (generateSiweWithTCW env tcw address).2) ++
         Event.stageSignSiwe rendered :: (signSiweWithWorld env rendered).2) := by
  simp [performTCWWorldAuth, performTCWWorldAuthBody, hw, h1, h2, h3, h4, Except.mapError]

theorem performTCWWorldAuth_afterSign (env : Env) (tcw : Option TcwInstance)
    (address : String) (siwe : SimpleSiweMessage) (rendered sig : String)
    (hw : env.windowDefined = true)
    (h1 : getWalletAddress env = .ok address)
    (h2 : (generateSiweWithTCW env tcw address).1 = .ok siwe)
    (h3 : siwe.prepareMessage = .ok rendered)
    (h4 : (signSiweWithWorld env rendered).1 = .ok sig) :
    performTCWWorldAuth env tcw =
      ((initializeTCWSession env tcw siwe sig).1.mapError
        (rethrowOrWrap "TCW + World authentication flow failed" "AUTH_FLOW_ERROR"),
       ((Event.stageGetWalletAddress :: Event.stageGenerateSiwe address ::
           (generateSiweWithTCW env tcw address).2) ++
          Event.stageSignSiwe rendered :: (signSiweWithWorld env rendered).2) ++
         Event.stageInitializeSession :: (initializeTCWSession env tcw siwe sig).2) := by
  cases h5 : (initializeTCWSession env tcw siwe sig).1 <;>
    simp [performTCWWorldAuth, performTCWWorldAuthBody, hw, h1, h2, h3, h4, h5,
      Except.mapError]

theorem performTCWWorldAuth_ok_inv (env : Env) (tcw : Option TcwInstance)
    (s : TCWAuthSession) (h : (performTCWWorldAuth env tcw).1 = .ok s) :
    env.windowDefined = true ∧ ∃ address siwe rendered sig,
      getWalletAddress env = .ok address ∧
      (generateSiweWithTCW env tcw address).1 = .ok siwe ∧
      siwe.prepareMessage = .ok rendered ∧
      (signSiweWithWorld env rendered).1 = .ok sig ∧
      (initializeTCWSession env tcw siwe sig).1 = .ok s := by
  by_cases hw : env.windowDefined = true
  case neg =>
    rw [performTCWWorldAuth_noWindow env tcw (by simpa using hw)] at h
    simp at h
  case pos =>
    refine ⟨hw, ?_⟩
    cases h1 : getWalletAddress env with
    | error e => rw [performTCWWorldAuth_addrError env tcw e hw h1] at h; simp at h
    | ok address =>
      cases h2 : (generateSiweWithTCW env tcw address).1 with
      | error e => rw [performTCWWorldAuth_genError env tcw address e hw h1 h2] at h; simp at h
      | ok siwe =>
        cases h3 : siwe.prepareMessage with
        | error e =>
            rw [performTCWWorldAuth_prepError env tcw address siwe e hw h1 h2 h3] at h
            simp at h
        | ok rendered =>
          cases h4 : (signSiweWithWorld env rendered).1 with
          | error e =>
              rw [performTCWWorldAuth_signError env tcw address siwe rendered e hw h1 h2 h3 h4] at h
              simp at h
          | ok sig =>
            rw [performTCWWorldAuth_afterSign env tcw address siwe rendered sig hw h1 h2 h3 h4] at h
            cases h5 : (initializeTCWSession env tcw siwe sig).1 with
            | error e => rw [h5] at h; simp [Except.mapError] at h
            | ok s2 =>
                rw [h5] at h
                simp [Except.mapError] at h
                subst h
                exact ⟨address, siwe, rendered, sig, rfl, h2, h3, h4, h5⟩

theorem stageTrace_cons_getAddr (tr : List Event) :
    stageTrace (Event.stageGetWalletAddress :: tr) = StageTag.getAddr :: stageTrace tr := by
  simp [stageTrace, stageTagOf]

theorem stageTrace_cons_genSiwe (a : String) (tr : List Event) :
    stageTrace (Event.stageGenerateSiwe a :: tr) = StageTag.genSiwe :: stageTrace tr := by
  simp [stageTrace, stageTagOf]

theorem stageTrace_cons_signSiwe (m : String) (tr : List Event) :
    stageTrace (Event.stageSignSiwe m :: tr) = StageTag.signSiwe :: stageTrace tr := by
  simp [stageTrace, stageTagOf]

theorem stageTrace_cons_initSession (tr : List Event) :
    stageTrace (Event.stageInitializeSession :: tr) = StageTag.initSession :: stageTrace tr := by
  simp [stageTrace, stageTagOf]

theorem generateSiweWithTCW_nullTcw (env : Env) (address : String) :
    generateSiweWithTCW env none address =
      (.error (.tcwAuthError "TCW instance is not available" "TCW_NOT_INITIALIZED" none),
       []) := by
  simp [generateSiweWithTCW, generateSiweWithTCWBody, Except.mapError, rethrowOrWrap]

theorem generateSiweWithTCW_invalidAddress (env : Env) (t : TcwInstance) (address : String)
    (h : addressFormatFails address = true) :
    generateSiweWithTCW env (some t) address =
      (.error (.tcwAuthError "Invalid Ethereum address format" "INVALID_ADDRESS" none),
       []) := by
  simp [generateSiweWithTCW, generateSiweWithTCWBody, h, Except.mapError, rethrowOrWrap]

theorem generateSiweWithTCW_noWindow (env : Env) (t : TcwInstance) (address : String)
    (hfmt : addressFormatFails address = false) (hw : env.windowDefined = false) :
    generateSiweWithTCW env (some t) address =
      (.error (.tcwAuthError "TCW authentication must be called in browser environment"
        "NOT_BROWSER_ENVIRONMENT" none), []) := by
  simp [generateSiweWithTCW, generateSiweWithTCWBody, hfmt, hw, Except.mapError,
    rethrowOrWrap]

/-! ## Claims -/

/-- C7: performTCWWorldAuth checks the execution-context precondition once,
up front: whenever the browser window is absent it fails immediately with
the NOT_BROWSER_ENVIRONMENT classification, with an empty trace, so none of
getWalletAddress, generateSiweWithTCW, signSiweWithWorld,
initializeTCWSession is invoked. -/
theorem c7_browser_gate_before_stages (env : Env) (tcw : Option TcwInstance)
    (h : env.windowDefined = false) :
    performTCWWorldAuth env tcw =
      (.error (.tcwAuthError
        "TCW + World authentication can only be performed in browser environment"
        "NOT_BROWSER_ENVIRONMENT" none), []) :=
  performTCWWorldAuth_noWindow env tcw h

/-- Witness for C7 at a concrete window-less environment. -/
theorem c7_browser_gate_before_stages_witness :
    performTCWWorldAuth { envBase with windowDefined := false } (some tcwOk) =
      (.error (.tcwAuthError
        "TCW + World authentication can only be performed in browser environment"
        "NOT_BROWSER_ENVIRONMENT" none), []) :=
  c7_browser_gate_before_stages { envBase with windowDefined := false } (some tcwOk) rfl

/-- C6: generateSiweWithTCW validates its preconditions in the fixed order
null session context (TCW_NOT_INITIALIZED) first — regardless of the
address, so a null context together with a malformed address yields the
missing-context error — then address format (INVALID_ADDRESS) — regardless
of the execution context — then browser environment
(NOT_BROWSER_ENVIRONMENT). -/
theorem c6_precondition_order :
    (∀ (env : Env) (address : String),
        generateSiweWithTCW env none address =
          (.error (.tcwAuthError "TCW instance is not available" "TCW_NOT_INITIALIZED"
            none), []))
    ∧ (∀ (env : Env) (t : TcwInstance) (address : String),
        addressFormatFails address = true →
        generateSiweWithTCW env (some t) address =
          (.error (.tcwAuthError "Invalid Ethereum address format" "INVALID_ADDRESS"
            none), []))
    ∧ (∀ (env : Env) (t : TcwInstance) (address : String),
        addressFormatFails address = false →
        env.windowDefined = false →
        generateSiweWithTCW env (some t) address =
          (.error (.tcwAuthError "TCW authentication must be called in browser environment"
            "NOT_BROWSER_ENVIRONMENT" none), [])) :=
  ⟨fun env address => generateSiweWithTCW_nullTcw env address,
   fun env t address h => generateSiweWithTCW_invalidAddress env t address h,
   fun env t address hfmt hw => generateSiweWithTCW_noWindow env t address hfmt hw⟩

/-- Witness for C6: a window-less environment with a malformed address and
null context gives the missing-context error; with a context, the malformed
address wins over the missing window; with a valid address, the window
check fires. -/
theorem c6_precondition_order_witness :
    generateSiweWithTCW { envBase with windowDefined := false } none "0xshort" =
      (.error (.tcwAuthError "TCW instance is not available" "TCW_NOT_INITIALIZED" none),
       [])
    ∧ generateSiweWithTCW { envBase with windowDefined := false } (some tcwOk) "0xshort" =
      (.error (.tcwAuthError "Invalid Ethereum address format" "INVALID_ADDRESS" none),
       [])
    ∧ generateSiweWithTCW { envBase with windowDefined := false } (some tcwOk) validAddr =
      (.error (.tcwAuthError "TCW authentication must be called in browser environment"
        "NOT_BROWSER_ENVIRONMENT" none), []) :=
  ⟨c6_precondition_order.1 { envBase with windowDefined := false } "0xshort",
   c6_precondition_order.2.1 { envBase with windowDefined := false } tcwOk "0xshort"
     (by decide),
   c6_precondition_order.2.2 { envBase with windowDefined := false } tcwOk validAddr
     (by decide) rfl⟩

/-- C3 counterexample: the 42-character 0x-prefixed address consisting of
non-hex characters passes the source's format check — generateSiweWithTCW
succeeds and the session layer's generateSiweMessage is called, instead of
failing with INVALID_ADDRESS as the claim requires for every address
failing the hexadecimal format. -/
theorem c3_nonhex_address_not_rejected :
    (generateSiweWithTCW envBase (some tcwOk) badHexAddr).1 = .ok (siweOk badHexAddr)
    ∧ (generateSiweWithTCW envBase (some tcwOk) badHexAddr).2 =
      [Event.sessionGenerateSiweMessage badHexAddr
        { statement := "Sign in to World Mini App with TinyCloud"
          domain := "app.example"
          uri := "https://app.example"
          version := "1"
          chainId := 1
          expirationTime := 1700000000000 + 24 * 60 * 60 * 1000
          notBefore := 1700000000000 - 60 * 1000 }] :=
  ⟨rfl, rfl⟩

/-- C3 amended: for every address that is empty, lacks the "0x" prefix, or
whose length differs from 42 characters, generateSiweWithTCW (with a
non-null session context) fails with INVALID_ADDRESS and the session
layer is never called (empty trace); hex-ness of the characters after the
prefix is not checked. -/
theorem c3_amended_format_rejection (env : Env) (t : TcwInstance) (address : String)
    (h : addressFormatFails address = true) :
    generateSiweWithTCW env (some t) address =
      (.error (.tcwAuthError "Invalid Ethereum address format" "INVALID_ADDRESS" none),
       []) :=
  generateSiweWithTCW_invalidAddress env t address h

/-- Witness for the amended C3 at the empty address. -/
theorem c3_amended_format_rejection_witness :
    generateSiweWithTCW envBase (some tcwOk) "" =
      (.error (.tcwAuthError "Invalid Ethereum address format" "INVALID_ADDRESS" none),
       []) :=
  c3_amended_format_rejection envBase tcwOk "" (by decide)

/-- C9: the random correlation token derived inside generateSiweWithTCW
does not influence its output — replacing the strong-randomness
availability flag, the UUID value, and the fallback pseudo-random token
(with clock, session context, address and the rest of the execution
context fixed) leaves the result, configuration events included,
unchanged. -/
theorem c9_correlation_token_no_influence (env : Env) (tcw : Option TcwInstance)
    (address : String) (ca : Bool) (u mt : String) :
    generateSiweWithTCW
        { env with cryptoAvailable := ca, randomUUID := u, mathRandomToken := mt }
        tcw address =
      generateSiweWithTCW env tcw address := by
  cases tcw <;> rfl

/-- C10: in the placeholder implementation, initializeTCWSession succeeds
for every sessionContext, signInMessage and signature whenever
prepareMessage returns normally, its opaque handle has initialized = true
and the message's address, and it never consults the session layer — its
result does not depend on the tcw argument at all. -/
theorem c10_initializeTCWSession_placeholder :
    (∀ (env : Env) (tcw : Option TcwInstance) (siwe : SimpleSiweMessage) (sig t : String),
        siwe.prepareMessage = .ok t →
        initializeTCWSession env tcw siwe sig =
          (.ok { address := siwe.address, signature := sig, message := t,
                 tcwSession :=
                   { initialized := true, address := siwe.address,
                     timestamp := env.now } }, []))
    ∧ (∀ (env : Env) (tcw tcw' : Option TcwInstance) (siwe : SimpleSiweMessage)
        (sig : String),
        initializeTCWSession env tcw siwe sig = initializeTCWSession env tcw' siwe sig) := by
  constructor
  · intro env tcw siwe sig t h
    simp [initializeTCWSession, initializeTCWSessionBody, h, Except.mapError]
  · intro env tcw tcw' siwe sig
    rfl

/-- Witness for C10 at a concrete message whose rendering succeeds. -/
theorem c10_initializeTCWSession_placeholder_witness :
    initializeTCWSession envBase (some tcwOk) (siweOk validAddr) "0xsig" =
      (.ok { address := validAddr, signature := "0xsig",
             message := "rendered:" ++ validAddr,
             tcwSession := { initialized := true, address := validAddr,
                             timestamp := 1700000000000 } }, []) :=
  c10_initializeTCWSession_placeholder.1 envBase (some tcwOk) (siweOk validAddr) "0xsig"
    ("rendered:" ++ validAddr) rfl

/-- C2: a successful initializeTCWSession returns an AuthSession whose
address equals signInMessage.address, whose signature is the input
signature, and whose message is prepareMessage's rendering; consequently,
on a successful pipeline run the returned AuthSession's address equals the
address embedded in its sign-in message and its signature is the one the
wallet produced over exactly the rendered text. -/
theorem c2_authsession_invariant :
    (∀ (env : Env) (tcw : Option TcwInstance) (siwe : SimpleSiweMessage) (sig t : String),
        siwe.prepareMessage = .ok t →
        (initializeTCWSession env tcw siwe sig).1 =
          .ok { address := siwe.address, signature := sig, message := t,
                tcwSession :=
                  { initialized := true, address := siwe.address, timestamp := env.now } })
    ∧ (∀ (env : Env) (tcw : Option TcwInstance) (s : TCWAuthSession),
        (performTCWWorldAuth env tcw).1 = .ok s →
        ∃ (siwe : SimpleSiweMessage) (p : SignPayload),
          siwe.prepareMessage = .ok s.message
          ∧ s.address = siwe.address
          ∧ env.walletAuth s.message = .ok p
          ∧ (p.status == "error") = false
          ∧ s.signature = p.signature) := by
  constructor
  · intro env tcw siwe sig t h
    simp [initializeTCWSession, initializeTCWSessionBody, h, Except.mapError]
  · intro env tcw s h
    obtain ⟨hw, address, siwe, rendered, sig, h1, h2, h3, h4, h5⟩ :=
      performTCWWorldAuth_ok_inv env tcw s h
    obtain ⟨hprep, haddr, hsig⟩ := initializeTCWSession_ok_inv env tcw siwe sig s h5
    obtain ⟨hm, p, hp, hstat, hsig2⟩ := signSiweWithWorld_ok_inv env rendered sig h4
    have hr : rendered = s.message := by
      rw [h3] at hprep
      exact Except.ok.inj hprep
    refine ⟨siwe, p, hprep, haddr, ?_, hstat, ?_⟩
    · rw [← hr]; exact hp
    · rw [hsig, hsig2]

/-- Witness for C2 at a concrete message whose rendering succeeds. -/
theorem c2_authsession_invariant_witness :
    (initializeTCWSession envBase (some tcwOk) (siweOk validAddr) "0xsig").1 =
      .ok { address := validAddr, signature := "0xsig",
            message := "rendered:" ++ validAddr,
            tcwSession := { initialized := true, address := validAddr,
                            timestamp := 1700000000000 } } :=
  c2_authsession_invariant.1 envBase (some tcwOk) (siweOk validAddr) "0xsig"
    ("rendered:" ++ validAddr) rfl

/-- C8: for every valid address, the configuration generateSiweWithTCW
passes to the session layer has the fixed statement text, the window's
host as domain, the window's origin as uri, version "1", chain id 1,
expiration time 24 hours (in ms) after the current clock, and not-before
time 1 minute before it; and whatever message the session layer returns
for that configuration is returned to the caller unmodified. -/
theorem c8_session_config (env : Env) (t : TcwInstance) (address : String)
    (hfmt : addressFormatFails address = false)
    (hw : env.windowDefined = true) :
    ∃ cfg : SiweMessageConfig,
      cfg.statement = "Sign in to World Mini App with TinyCloud"
      ∧ cfg.domain = env.windowHost
      ∧ cfg.uri = env.windowOrigin
      ∧ cfg.version = "1"
      ∧ cfg.chainId = 1
      ∧ cfg.expirationTime = env.now + 24 * 60 * 60 * 1000
      ∧ cfg.notBefore = env.now - 60 * 1000
      ∧ (generateSiweWithTCW env (some t) address).2 =
          [Event.sessionGenerateSiweMessage address cfg]
      ∧ ∀ m, t.generateSiweMessage address cfg = .ok m →
          (generateSiweWithTCW env (some t) address).1 = .ok m := by
  refine ⟨{ statement := "Sign in to World Mini App with TinyCloud"
            domain := env.windowHost
            uri := env.windowOrigin
            version := "1"
            chainId := 1
            expirationTime := env.now + 24 * 60 * 60 * 1000
            notBefore := env.now - 60 * 1000 },
    rfl, rfl, rfl, rfl, rfl, rfl, rfl, ?_, ?_⟩
  · simp [generateSiweWithTCW, generateSiweWithTCWBody, hfmt, hw]
  · intro m hm
    norm_num at hm
    simp [generateSiweWithTCW, generateSiweWithTCWBody, hfmt, hw, hm, Except.mapError]

/-- Witness for C8 at the base environment and a valid address. -/
theorem c8_session_config_witness :
    ∃ cfg : SiweMessageConfig,
      cfg.statement = "Sign in to World Mini App with TinyCloud"
      ∧ cfg.domain = envBase.windowHost
      ∧ cfg.uri = envBase.windowOrigin
      ∧ cfg.version = "1"
      ∧ cfg.chainId = 1
      ∧ cfg.expirationTime = envBase.now + 24 * 60 * 60 * 1000
      ∧ cfg.notBefore = envBase.now - 60 * 1000
      ∧ (generateSiweWithTCW envBase (some tcwOk) validAddr).2 =
          [Event.sessionGenerateSiweMessage validAddr cfg]
      ∧ ∀ m, tcwOk.generateSiweMessage validAddr cfg = .ok m →
          (generateSiweWithTCW envBase (some tcwOk) validAddr).1 = .ok m :=
  c8_session_config envBase tcwOk validAddr (by decide) rfl

/-- C4 counterexample: the explicit-error-status failure and the
unexpected-exception failure of signSiweWithWorld carry the same
classified code WORLD_SIGN_ERROR — they are not pairwise distinct
classifications as the claim requires. -/
theorem c4_signing_codes_collide :
    resultErrCode (signSiweWithWorld envSignErr "msg").1 = some "WORLD_SIGN_ERROR"
    ∧ resultErrCode (signSiweWithWorld envSignExc "msg").1 = some "WORLD_SIGN_ERROR"
    ∧ (signSiweWithWorld envSignErr "msg").1 =
        .error (.tcwAuthError "Failed to sign message with World" "WORLD_SIGN_ERROR" none)
    ∧ (signSiweWithWorld envSignExc "msg").1 =
        .error (.tcwAuthError "Failed to sign SIWE message with World" "WORLD_SIGN_ERROR"
          (some (.foreign "network failure"))) :=
  ⟨rfl, rfl, rfl, rfl⟩

/-- C4 amended: the three failure modes of signSiweWithWorld are
unavailability (code MINIKIT_NOT_INSTALLED), explicit error status (code
WORLD_SIGN_ERROR, message "Failed to sign message with World", no cause),
and unexpected exception (the same code WORLD_SIGN_ERROR, message
"Failed to sign SIWE message with World", cause attached): only the
unavailability code is distinct; the other two modes share their code and
differ only in message text and cause. -/
theorem c4_amended_signing_classifications :
    (∀ (env : Env) (m : String), env.minikitInstalled = false →
        (signSiweWithWorld env m).1 =
          .error (.tcwAuthError "MiniKit is not installed" "MINIKIT_NOT_INSTALLED" none))
    ∧ (∀ (env : Env) (m : String) (p : SignPayload),
        env.minikitInstalled = true → env.walletAuth m = .ok p → p.status = "error" →
        (signSiweWithWorld env m).1 =
          .error (.tcwAuthError "Failed to sign message with World" "WORLD_SIGN_ERROR"
            none))
    ∧ (∀ (env : Env) (m tag : String),
        env.minikitInstalled = true → env.walletAuth m = .error (.foreign tag) →
        (signSiweWithWorld env m).1 =
          .error (.tcwAuthError "Failed to sign SIWE message with World" "WORLD_SIGN_ERROR"
            (some (.foreign tag)))) := by
  refine ⟨?_, ?_, ?_⟩
  · intro env m h
    simp [signSiweWithWorld, signSiweWithWorldBody, h, Except.mapError, rethrowOrWrap]
  · intro env m p hm hp hs
    simp [signSiweWithWorld, signSiweWithWorldBody, hm, hp, hs, Except.mapError,
      rethrowOrWrap]
  · intro env m tag hm hw
    simp [signSiweWithWorld, signSiweWithWorldBody, hm, hw, Except.mapError, rethrowOrWrap]

/-- Witness for the amended C4: the three modes at concrete environments. -/
theorem c4_amended_signing_classifications_witness :
    (signSiweWithWorld { envBase with minikitInstalled := false } "msg").1 =
      .error (.tcwAuthError "MiniKit is not installed" "MINIKIT_NOT_INSTALLED" none)
    ∧ (signSiweWithWorld envSignErr "msg").1 =
      .error (.tcwAuthError "Failed to sign message with World" "WORLD_SIGN_ERROR" none)
    ∧ (signSiweWithWorld envSignExc "msg").1 =
      .error (.tcwAuthError "Failed to sign SIWE message with World" "WORLD_SIGN_ERROR"
        (some (.foreign "network failure"))) :=
  ⟨c4_amended_signing_classifications.1 { envBase with minikitInstalled := false } "msg" rfl,
   c4_amended_signing_classifications.2.1 envSignErr "msg"
     { status := "error", signature := "" } rfl rfl rfl,
   c4_amended_signing_classifications.2.2 envSignExc "msg" "network failure" rfl rfl⟩

/-- C5 counterexample: an already-classified error (code "BOOM") raised by
prepareMessage inside initializeTCWSession is re-wrapped by that stage's
catch block as TCW_SESSION_INIT_ERROR — the surfaced error's kind and
message differ from the original, contradicting idempotence of
classification for the SessionInitializer component. -/
theorem c5_session_initializer_rewraps :
    (initializeTCWSession envBase (some tcwOk) siweThrowsClassified "0xsig").1 =
      .error (.tcwAuthError "Failed to initialize TCW session" "TCW_SESSION_INIT_ERROR"
        (some (.tcwAuthError "boom" "BOOM" none)))
    ∧ resultErrCode
        (initializeTCWSession envBase (some tcwOk) siweThrowsClassified "0xsig").1 ≠
      some "BOOM"
    ∧ resultErrMessage
        (initializeTCWSession envBase (some tcwOk) siweThrowsClassified "0xsig").1 ≠
      some "boom" :=
  ⟨rfl, by decide, by decide⟩

/-- C5 amended: getWalletAddress, signSiweWithWorld, generateSiweWithTCW
and performTCWWorldAuth surface an already-classified error raised inside
their try bodies unchanged (same kind, message and cause); but
initializeTCWSession re-wraps every error raised inside its body —
classified or not — as TCW_SESSION_INIT_ERROR with the original as
cause. -/
theorem c5_amended_classification_idempotence :
    (∀ (env : Env) (m c : String) (cs : Option JsError),
        getWalletAddressBody env = .error (.tcwAuthError m c cs) →
        getWalletAddress env = .error (.tcwAuthError m c cs))
    ∧ (∀ (env : Env) (msg m c : String) (cs : Option JsError) (tr : List Event),
        signSiweWithWorldBody env msg = (.error (.tcwAuthError m c cs), tr) →
        signSiweWithWorld env msg = (.error (.tcwAuthError m c cs), tr))
    ∧ (∀ (env : Env) (tcw : Option TcwInstance) (a m c : String) (cs : Option JsError)
        (tr : List Event),
        generateSiweWithTCWBody env tcw a = (.error (.tcwAuthError m c cs), tr) →
        generateSiweWithTCW env tcw a = (.error (.tcwAuthError m c cs), tr))
    ∧ (∀ (env : Env) (tcw : Option TcwInstance) (m c : String) (cs : Option JsError)
        (tr : List Event),
        performTCWWorldAuthBody env tcw = (.error (.tcwAuthError m c cs), tr) →
        performTCWWorldAuth env tcw = (.error (.tcwAuthError m c cs), tr))
    ∧ (∀ (env : Env) (tcw : Option TcwInstance) (siwe : SimpleSiweMessage) (sig : String)
        (e : JsError),
        siwe.prepareMessage = .error e →
        (initializeTCWSession env tcw siwe sig).1 =
          .error (.tcwAuthError "Failed to initialize TCW session"
            "TCW_SESSION_INIT_ERROR" (some e))) := by
  refine ⟨?_, ?_, ?_, ?_, ?_⟩
  · intro env m c cs h
    simp only [getWalletAddress]
    rw [h]
    simp [Except.mapError, rethrowOrWrap]
  · intro env msg m c cs tr h
    simp only [signSiweWithWorld]
    rw [h]
    simp [Except.mapError, rethrowOrWrap]
  · intro env tcw a m c cs tr h
    simp only [generateSiweWithTCW]
    rw [h]
    simp [Except.mapError, rethrowOrWrap]
  · intro env tcw m c cs tr h
    simp only [performTCWWorldAuth]
    rw [h]
    simp [Except.mapError, rethrowOrWrap]
  · intro env tcw siwe sig e h
    simp [initializeTCWSession, initializeTCWSessionBody, h, Except.mapError]

/-- Witness for the amended C5: a classified error raised inside
getWalletAddress surfaces unchanged. -/
theorem c5_amended_classification_idempotence_witness :
    getWalletAddress { envBase with minikitInstalled := false } =
      .error (.tcwAuthError "MiniKit is not installed" "MINIKIT_NOT_INSTALLED" none) :=
  c5_amended_classification_idempotence.1 { envBase with minikitInstalled := false }
    "MiniKit is not installed" "MINIKIT_NOT_INSTALLED" none rfl

/-- C1: the four stages of performTCWWorldAuth run in the fixed order
getWalletAddress, generateSiweWithTCW, signSiweWithWorld,
initializeTCWSession — the stage trace is always a prefix of that
four-stage sequence, so each stage runs at most once and in order, and a
stage failure leaves the remaining stages uninvoked: a getWalletAddress
failure leaves exactly stage 1 invoked, a generateSiweWithTCW failure (or
a failing rendering of its message) leaves exactly stages 1-2 invoked so
signSiweWithWorld and initializeTCWSession never run, a signSiweWithWorld
failure leaves exactly stages 1-3 invoked so initializeTCWSession never
runs, an error status from every signing request keeps
initializeTCWSession uninvoked, and a successful run invokes all four
stages. -/
theorem c1_stage_order_and_short_circuit (env : Env) (tcw : Option TcwInstance) :
    (∃ k, k ≤ 4 ∧ stageTrace (performTCWWorldAuth env tcw).2 =
        [StageTag.getAddr, StageTag.genSiwe, StageTag.signSiwe,
          StageTag.initSession].take k)
    ∧ (env.windowDefined = true → (∃ e, getWalletAddress env = .error e) →
        stageTrace (performTCWWorldAuth env tcw).2 = [StageTag.getAddr])
    ∧ ((∀ m p, env.walletAuth m = .ok p → p.status = "error") →
        StageTag.initSession ∉ stageTrace (performTCWWorldAuth env tcw).2)
    ∧ (∀ s, (performTCWWorldAuth env tcw).1 = .ok s →
        stageTrace (performTCWWorldAuth env tcw).2 =
          [StageTag.getAddr, StageTag.genSiwe, StageTag.signSiwe,
            StageTag.initSession])
    ∧ (∀ (a : String) (e : JsError), env.windowDefined = true →
        getWalletAddress env = .ok a →
        (generateSiweWithTCW env tcw a).1 = .error e →
        stageTrace (performTCWWorldAuth env tcw).2 =
          [StageTag.getAddr, StageTag.genSiwe])
    ∧ (∀ (a : String) (siwe : SimpleSiweMessage) (e : JsError),
        env.windowDefined = true →
        getWalletAddress env = .ok a →
        (generateSiweWithTCW env tcw a).1 = .ok siwe →
        siwe.prepareMessage = .error e →
        stageTrace (performTCWWorldAuth env tcw).2 =
          [StageTag.getAddr, StageTag.genSiwe])
    ∧ (∀ (a : String) (siwe : SimpleSiweMessage) (rendered : String) (e : JsError),
        env.windowDefined = true →
        getWalletAddress env = .ok a →
        (generateSiweWithTCW env tcw a).1 = .ok siwe →
        siwe.prepareMessage = .ok rendered →
        (signSiweWithWorld env rendered).1 = .error e →
        stageTrace (performTCWWorldAuth env tcw).2 =
          [StageTag.getAddr, StageTag.genSiwe, StageTag.signSiwe]) := by
  have main :
      (env.windowDefined = false ∧ (performTCWWorldAuth env tcw).2 = [])
      ∨ (env.windowDefined = true ∧ (∃ e, getWalletAddress env = .error e) ∧
          stageTrace (performTCWWorldAuth env tcw).2 = [StageTag.getAddr])
      ∨ ((∃ a, getWalletAddress env = .ok a) ∧
          (∃ e, (performTCWWorldAuth env tcw).1 = .error e) ∧
          stageTrace (performTCWWorldAuth env tcw).2 =
            [StageTag.getAddr, StageTag.genSiwe])
      ∨ ((∃ a, getWalletAddress env = .ok a) ∧
          (∃ e, (performTCWWorldAuth env tcw).1 = .error e) ∧
          stageTrace (performTCWWorldAuth env tcw).2 =
            [StageTag.getAddr, StageTag.genSiwe, StageTag.signSiwe])
      ∨ ((∃ a, getWalletAddress env = .ok a) ∧
          (∃ rendered sig, (signSiweWithWorld env rendered).1 = .ok sig) ∧
          stageTrace (performTCWWorldAuth env tcw).2 =
            [StageTag.getAddr, StageTag.genSiwe, StageTag.signSiwe,
              StageTag.initSession]) := by
    cases hw : env.windowDefined with
    | false =>
        exact Or.inl ⟨rfl, by rw [performTCWWorldAuth_noWindow env tcw hw]⟩
    | true =>
        cases h1 : getWalletAddress env with
        | error e =>
            refine Or.inr (Or.inl ⟨rfl, ⟨e, rfl⟩, ?_⟩)
            rw [performTCWWorldAuth_addrError env tcw e hw h1]
            rfl
        | ok a =>
            cases h2 : (generateSiweWithTCW env tcw a).1 with
            | error e2 =>
                refine Or.inr (Or.inr (Or.inl ⟨⟨a, rfl⟩,
                  ⟨rethrowOrWrap "TCW + World authentication flow failed" "AUTH_FLOW_ERROR"
                    e2, ?_⟩, ?_⟩))
                · rw [performTCWWorldAuth_genError env tcw a e2 hw h1 h2]
                · rw [performTCWWorldAuth_genError env tcw a e2 hw h1 h2]
                  simp [stageTrace_cons_getAddr, stageTrace_cons_genSiwe,
                    generateSiweWithTCW_trace_stageFree]
            | ok siwe =>
                cases h3 : siwe.prepareMessage with
                | error e3 =>
                    refine Or.inr (Or.inr (Or.inl ⟨⟨a, rfl⟩,
                      ⟨rethrowOrWrap "TCW + World authentication flow failed"
                        "AUTH_FLOW_ERROR" e3, ?_⟩, ?_⟩))
                    · rw [performTCWWorldAuth_prepError env tcw a siwe e3 hw h1 h2 h3]
                    · rw [performTCWWorldAuth_prepError env tcw a siwe e3 hw h1 h2 h3]
                      simp [stageTrace_cons_getAddr, stageTrace_cons_genSiwe,
                        generateSiweWithTCW_trace_stageFree]
                | ok rendered =>
                    cases h4 : (signSiweWithWorld env rendered).1 with
                    | error e4 =>
                        refine Or.inr (Or.inr (Or.inr (Or.inl ⟨⟨a, rfl⟩,
                          ⟨rethrowOrWrap "TCW + World authentication flow failed"
                            "AUTH_FLOW_ERROR" e4, ?_⟩, ?_⟩)))
                        · rw [performTCWWorldAuth_signError env tcw a siwe rendered e4
                            hw h1 h2 h3 h4]
                        · rw [performTCWWorldAuth_signError env tcw a siwe rendered e4
                            hw h1 h2 h3 h4]
                          simp [stageTrace_append, stageTrace_cons_getAddr,
                            stageTrace_cons_genSiwe, stageTrace_cons_signSiwe,
                            generateSiweWithTCW_trace_stageFree,
                            signSiweWithWorld_trace_stageFree]
                    | ok sig =>
                        refine Or.inr (Or.inr (Or.inr (Or.inr ⟨⟨a, rfl⟩,
                          ⟨rendered, sig, h4⟩, ?_⟩)))
                        rw [performTCWWorldAuth_afterSign env tcw a siwe rendered sig
                          hw h1 h2 h3 h4]
                        simp [stageTrace_append, stageTrace_cons_getAddr,
                          stageTrace_cons_genSiwe, stageTrace_cons_signSiwe,
                          stageTrace_cons_initSession,
                          generateSiweWithTCW_trace_stageFree,
                          signSiweWithWorld_trace_stageFree,
                          initializeTCWSession_trace_nil, stageTrace_nil]
  refine ⟨?_, ?_, ?_, ?_, ?_, ?_, ?_⟩
  · rcases main with ⟨_, htr⟩ | ⟨_, _, htr⟩ | ⟨_, _, htr⟩ | ⟨_, _, htr⟩ | ⟨_, _, htr⟩
    · exact ⟨0, by omega, by rw [htr]; rfl⟩
    · exact ⟨1, by omega, htr⟩
    · exact ⟨2, by omega, htr⟩
    · exact ⟨3, by omega, htr⟩
    · exact ⟨4, by omega, htr⟩
  · intro hw hfail
    rcases main with ⟨hwf, _⟩ | ⟨_, _, htr⟩ | ⟨⟨a, ha⟩, _, _⟩ | ⟨⟨a, ha⟩, _, _⟩ |
      ⟨⟨a, ha⟩, _, _⟩
    · rw [hwf] at hw; exact Bool.noConfusion hw
    · exact htr
    · obtain ⟨e, he⟩ := hfail; rw [ha] at he; exact Except.noConfusion he
    · obtain ⟨e, he⟩ := hfail; rw [ha] at he; exact Except.noConfusion he
    · obtain ⟨e, he⟩ := hfail; rw [ha] at he; exact Except.noConfusion he
  · intro hstat
    rcases main with ⟨_, htr⟩ | ⟨_, _, htr⟩ | ⟨_, _, htr⟩ | ⟨_, _, htr⟩ |
      ⟨_, ⟨rendered, sig, hsig⟩, _⟩
    · rw [htr]; decide
    · rw [htr]; decide
    · rw [htr]; decide
    · rw [htr]; decide
    · exfalso
      obtain ⟨hm, p, hp, hstatus, _⟩ := signSiweWithWorld_ok_inv env rendered sig hsig
      have hse := hstat rendered p hp
      rw [hse] at hstatus
      simp at hstatus
  · intro s hs
    obtain ⟨hw, a, siwe, rendered, sig, h1, h2, h3, h4, h5⟩ :=
      performTCWWorldAuth_ok_inv env tcw s hs
    rw [performTCWWorldAuth_afterSign env tcw a siwe rendered sig hw h1 h2 h3 h4]
    simp [stageTrace_append, stageTrace_cons_getAddr, stageTrace_cons_genSiwe,
      stageTrace_cons_signSiwe, stageTrace_cons_initSession,
      generateSiweWithTCW_trace_stageFree, signSiweWithWorld_trace_stageFree,
      initializeTCWSession_trace_nil, stageTrace_nil]
  · intro a e hw h1 h2
    rw [performTCWWorldAuth_genError env tcw a e hw h1 h2]
    simp [stageTrace_cons_getAddr, stageTrace_cons_genSiwe,
      generateSiweWithTCW_trace_stageFree]
  · intro a siwe e hw h1 h2 h3
    rw [performTCWWorldAuth_prepError env tcw a siwe e hw h1 h2 h3]
    simp [stageTrace_cons_getAddr, stageTrace_cons_genSiwe,
      generateSiweWithTCW_trace_stageFree]
  · intro a siwe rendered e hw h1 h2 h3 h4
    rw [performTCWWorldAuth_signError env tcw a siwe rendered e hw h1 h2 h3 h4]
    simp [stageTrace_append, stageTrace_cons_getAddr, stageTrace_cons_genSiwe,
      stageTrace_cons_signSiwe, generateSiweWithTCW_trace_stageFree,
      signSiweWithWorld_trace_stageFree]

/-- Witness for C1: when getWalletAddress fails (MiniKit not installed),
exactly stage 1 appears in the trace; when generateSiweWithTCW fails (null
session context), exactly stages 1-2 appear; when signing fails (error
status), exactly stages 1-3 appear. -/
theorem c1_stage_order_and_short_circuit_witness :
    stageTrace
      (performTCWWorldAuth { envBase with minikitInstalled := false } (some tcwOk)).2 =
      [StageTag.getAddr]
    ∧ stageTrace (performTCWWorldAuth envBase none).2 =
      [StageTag.getAddr, StageTag.genSiwe]
    ∧ stageTrace (performTCWWorldAuth envSignErr (some tcwOk)).2 =
      [StageTag.getAddr, StageTag.genSiwe, StageTag.signSiwe] :=
  ⟨(c1_stage_order_and_short_circuit { envBase with minikitInstalled := false }
      (some tcwOk)).2.1 rfl
    ⟨.tcwAuthError "MiniKit is not installed" "MINIKIT_NOT_INSTALLED" none, rfl⟩,
   (c1_stage_order_and_short_circuit envBase none).2.2.2.2.1 validAddr
    (.tcwAuthError "TCW instance is not available" "TCW_NOT_INITIALIZED" none)
    rfl rfl rfl,
   (c1_stage_order_and_short_circuit envSignErr (some tcwOk)).2.2.2.2.2.2 validAddr
    (siweOk validAddr) ("rendered:" ++ validAddr)
    (.tcwAuthError "Failed to sign message with World" "WORLD_SIGN_ERROR" none)
    rfl rfl rfl rfl rfl⟩
